import Mathlib

/-!
Verification of the Random-Image-Selector application.

The program has two parts:

* the Selector (`src/randomImageSellector2.py`, function
  `random_image_selector2`): lists the configured image folder with
  `os.listdir`, keeps entries whose lowercased name ends with one of five
  extensions, and, if any remain, returns the `os.path.join` of the folder
  with one of them chosen by `random.choice`; otherwise it prints a message
  and returns `None`;

* the Viewer (`src/app_ui.py`, class `ImageViewerApp`): its click handler
  `on_button_click` asks the Selector for a path; on absence it configures
  the image label with `config(image=None, text="No images found in folder.")`
  and returns; otherwise it opens the file with Pillow, resizes it to
  `(1000, 500)` with `Image.Resampling.LANCZOS`, wraps it in an
  `ImageTk.PhotoImage`, sets it on the label and stores it in the
  `image_label.image` attribute; any exception in that block is printed and
  answered by `config(image=None, text="Error loading image.")`.
  `ImageViewerApp.__init__` builds the widgets and then calls
  `on_button_click` once.

The embedding below is shallow: the filesystem listing, Pillow's
`Image.open` and `ImageTk.PhotoImage` construction are environment
parameters (`Env`), exceptions are `Except`, and printed lines are returned
alongside the new state.  Two pieces of library behaviour are modelled
explicitly because the claims depend on them:

* CPython's `tkinter.Misc._options` (used by `widget.config`) silently
  drops every keyword argument whose value is `None`; hence
  `config(image=None, text=...)` sets only the text option and leaves a
  previously configured image in place (`tkConfig`);

* a Tk label whose `-image` option is set displays the image and not the
  text (the default `-compound none`); `LabelState.displayed` captures
  which of the two the label shows.
-/

/-- Exceptions `os.listdir` can raise when the configured directory is
missing or unreadable. -/
inductive OSErr where
  | FileNotFoundError
  | NotADirectoryError
  | PermissionError
  deriving DecidableEq, Repr

deriving instance DecidableEq for Except

/-- The hardcoded folder path from `randomImageSellector2.py`
(`image_folder = r"enter your image folder"`). -/
def image_folder : String := "enter your image folder"

/-- The tuple of supported extensions from `randomImageSellector2.py`
(`valid_extensions = (".jpg", ".jpeg", ".png", ".gif", ".bmp")`). -/
def valid_extensions : List String := [".jpg", ".jpeg", ".png", ".gif", ".bmp"]

/-- Python's `str.lower()` on its ASCII fragment: each character `A`..`Z`
is replaced by its lowercase counterpart (the recognised extensions are
pure ASCII, so this is the fragment the Selector exercises). -/
def pyLower (s : String) : String :=
  String.mk (s.data.map Char.toLower)

/-- Python's `s.endswith(post)`: the character sequence of `post` is a
suffix of the character sequence of `s`. -/
def pyEndsWith (s post : String) : Bool :=
  List.isSuffixOf post.data s.data

/-- The filter condition of the list comprehension in
`random_image_selector2`: `files.lower().endswith(valid_extensions)`.
Python's `str.endswith` applied to a tuple succeeds when the string ends
with any member of the tuple. -/
def matchesExt (files : String) : Bool :=
  valid_extensions.any (fun ext => pyEndsWith (pyLower files) ext)

/-- `os.path.join(folder, name)` for a relative `name` (as produced by
`os.listdir`) on a POSIX system: the folder, a separator, the name. -/
def joinPath (folder name : String) : String :=
  folder ++ "/" ++ name

/-- `random_image_selector2` from `src/randomImageSellector2.py`.

`listing` is the outcome of `os.listdir(image_folder)` (an exception when
the directory is missing or unreadable); the call is not wrapped in any
`try`, so a listing error propagates.  `rng` is the value the Mersenne
Twister hands to `random.choice`, which picks `seq[_randbelow(len(seq))]`
with `_randbelow(n)` uniform on `[0, n)`; taking `rng % length` maps any
generator draw to that range and is the identity on it.  The result pairs
the returned value (`none` models Python's `None`) with the printed lines. -/
def random_image_selector2 (folder : String) (listing : Except OSErr (List String))
    (rng : Nat) : Except OSErr (Option String × List String) :=
  match listing with
  | Except.error e => Except.error e
  | Except.ok entries =>
      let all_files := entries.filter (fun files => matchesExt files)
      if all_files.isEmpty then
        Except.ok (none, ["No image files found in the specified folder."])
      else
        let random_image_file := all_files.getD (rng % all_files.length) ""
        Except.ok (some (joinPath folder random_image_file), [])

/-- Pillow's resampling filters (`PIL.Image.Resampling`). -/
inductive Resampling where
  | NEAREST
  | BOX
  | BILINEAR
  | HAMMING
  | BICUBIC
  | LANCZOS
  deriving DecidableEq, Repr

/-- A decoded Pillow image: its pixel dimensions, together with the
resampling filter that produced it (`none` for a freshly opened file). -/
structure PILImage where
  width : Nat
  height : Nat
  producedBy : Option Resampling
  deriving DecidableEq, Repr

/-- `PIL.Image.resize(size, resample)`: the result has exactly the
requested dimensions and records the filter that produced it. -/
def PILImage.resize (_img : PILImage) (size : Nat × Nat) (resample : Resampling) : PILImage :=
  { width := size.1, height := size.2, producedBy := some resample }

/-- An `ImageTk.PhotoImage` wrapping a decoded image. -/
structure PhotoImage where
  img : PILImage
  deriving DecidableEq, Repr

/-- The environment the Viewer runs against: the directory listing the
Selector sees, the outcome of `PIL.Image.open` on each path (an error
string models the exception raised on a corrupt or unreadable file), and
whether `ImageTk.PhotoImage` construction fails on a given image. -/
structure Env where
  listing : Except OSErr (List String)
  openImage : String → Except String PILImage
  photoErr : PILImage → Option String

/-- `ImageTk.PhotoImage(img)`: fails when the environment says so,
otherwise wraps the image unchanged. -/
def mkPhotoImage (env : Env) (img : PILImage) : Except String PhotoImage :=
  match env.photoErr img with
  | some e => Except.error e
  | none => Except.ok { img := img }

/-- The body of the `try` block of `on_button_click`: open the file,
resize to `(1000, 500)` with `Image.Resampling.LANCZOS`, build the
`PhotoImage`.  Any of the steps can raise. -/
def loadPhoto (env : Env) (image_path : String) : Except String PhotoImage :=
  match env.openImage image_path with
  | Except.error e => Except.error e
  | Except.ok img => mkPhotoImage env (img.resize (1000, 500) Resampling.LANCZOS)

/-- The Tk option state of the image label: its `-image` option and its
`-text` option. -/
structure LabelState where
  imageOption : Option PhotoImage
  text : String
  deriving DecidableEq, Repr

/-- `widget.config(image=..., text=...)` as executed by CPython's tkinter:
`Misc._options` drops every keyword whose value is `None`, so passing
`image=None` (here: `image := none`) leaves the `-image` option unchanged,
and only keywords with a real value are set. -/
def tkConfig (lbl : LabelState) (image : Option PhotoImage) (text : Option String) : LabelState :=
  { imageOption := match image with
      | some p => some p
      | none => lbl.imageOption,
    text := match text with
      | some t => t
      | none => lbl.text }

/-- What the label shows. -/
inductive DisplayedContent where
  | image (p : PhotoImage)
  | text (t : String)
  deriving DecidableEq, Repr

/-- A Tk label with its `-image` option set displays the image; only a
label with no image displays its text (`-compound` is left at its default
`none`). -/
def LabelState.displayed (lbl : LabelState) : DisplayedContent :=
  match lbl.imageOption with
  | some p => DisplayedContent.image p
  | none => DisplayedContent.text lbl.text

/-- The mutable state of the Viewer that `on_button_click` touches: the
image label's Tk options and the Python attribute `image_label.image`
("keep a reference to the PhotoImage to avoid garbage collection"). -/
structure ViewerState where
  image_label : LabelState
  imageAttr : Option PhotoImage
  deriving DecidableEq, Repr

/-- Python truthiness of `image_path` in `if not image_path:`: `None` and
the empty string are falsy. -/
def pyFalsy : Option String → Bool
  | none => true
  | some s => s == ""

/-- The text configured on the absence branch of `on_button_click`. -/
def noImagesText : String := "No images found in folder."

/-- The text configured on the exception branch of `on_button_click`. -/
def errorText : String := "Error loading image."

/-- `ImageViewerApp.on_button_click` from `src/app_ui.py`.

It calls the Selector (whose listing exception, if any, propagates
uncaught).  If the returned `image_path` is falsy it configures the label
with `image=None, text="No images found in folder."` and returns.
Otherwise it runs the `try` block: on success it configures the label with
the new `PhotoImage` and stores it in the `image_label.image` attribute;
on any exception it prints `f"Error loading image {image_path}: {exc}"`
and configures the label with `image=None, text="Error loading image."`.
The result pairs the new state with the lines printed during the call. -/
def on_button_click (env : Env) (rng : Nat) (st : ViewerState) :
    Except OSErr (ViewerState × List String) :=
  match random_image_selector2 image_folder env.listing rng with
  | Except.error e => Except.error e
  | Except.ok (image_path, out) =>
      if pyFalsy image_path then
        Except.ok ({ st with
          image_label := tkConfig st.image_label none (some noImagesText) }, out)
      else
        let p := image_path.getD ""
        match loadPhoto env p with
        | Except.ok photo_image =>
            Except.ok ({ st with
              image_label := tkConfig st.image_label (some photo_image) none,
              imageAttr := some photo_image }, out)
        | Except.error exc =>
            Except.ok ({ st with
              image_label := tkConfig st.image_label none (some errorText) },
              out ++ ["Error loading image " ++ p ++ ": " ++ exc])

/-- The image label as `_create_widgets` builds it: no image, empty text
(`tk.Label(self.right_frame, borderwidth=20, bg="light blue")`). -/
def initialViewerState : ViewerState :=
  { image_label := { imageOption := none, text := "" }, imageAttr := none }

/-- `ImageViewerApp.__init__`: after building frames and widgets it calls
`self.on_button_click()` once to populate the UI. -/
def ImageViewerApp_init (env : Env) (rng : Nat) : Except OSErr (ViewerState × List String) :=
  on_button_click env rng initialViewerState

/-! ### Concrete fixtures used to evaluate the model -/

/-- An environment whose configured directory is missing: `os.listdir`
raises `FileNotFoundError`. -/
def envMissing : Env :=
  { listing := Except.error OSErr.FileNotFoundError,
    openImage := fun _ => Except.error "unreachable",
    photoErr := fun _ => none }

/-- An environment whose directory contains no file with a recognised
extension. -/
def envNoMatch : Env :=
  { listing := Except.ok ["notes.txt", "data.csv"],
    openImage := fun _ => Except.error "unreachable",
    photoErr := fun _ => none }

/-- A freshly opened 640 by 480 image. -/
def img640 : PILImage := { width := 640, height := 480, producedBy := none }

/-- An environment with matching files, each of which decodes to
`img640`. -/
def envGood : Env :=
  { listing := Except.ok ["a.JPG", "notes.txt", "b.png"],
    openImage := fun _ => Except.ok img640,
    photoErr := fun _ => none }

/-- The Viewer state produced by a successful initial click against
`envGood`: the resized photo is on the label and in the stored
reference. -/
def stInitGood : ViewerState :=
  { image_label :=
      { imageOption := some { img := img640.resize (1000, 500) Resampling.LANCZOS },
        text := "" },
    imageAttr := some { img := img640.resize (1000, 500) Resampling.LANCZOS } }

/-- An environment with one matching file on which `PIL.Image.open`
raises. -/
def envBadDecode : Env :=
  { listing := Except.ok ["c.jpg"],
    openImage := fun _ => Except.error "cannot identify image file",
    photoErr := fun _ => none }

/-- A `PhotoImage` standing for an image displayed by an earlier,
successful button click. -/
def photoPrev : PhotoImage :=
  { img := { width := 1000, height := 500, producedBy := some Resampling.LANCZOS } }

/-- A Viewer state in which `photoPrev` is currently displayed: the
label's `-image` option is set and the `image_label.image` attribute holds
the reference. -/
def stShowing : ViewerState :=
  { image_label := { imageOption := some photoPrev, text := "" },
    imageAttr := some photoPrev }

/-! ### Helper lemmas about the Selector -/

theorem joinPath_inj {folder a b : String} (h : joinPath folder a = joinPath folder b) :
    a = b := by
  have hd : (folder ++ "/" ++ a).data = (folder ++ "/" ++ b).data := congrArg String.data h
  simp only [String.data_append] at hd
  exact String.ext (List.append_cancel_left hd)

theorem sel_eq_of_filter_ne_nil (folder : String) (l : List String) (rng : Nat)
    (h : l.filter matchesExt ≠ []) :
    random_image_selector2 folder (Except.ok l) rng =
      Except.ok (some (joinPath folder
        ((l.filter matchesExt).getD (rng % (l.filter matchesExt).length) "")), []) := by
  unfold random_image_selector2
  simp [List.isEmpty_iff, h]

theorem sel_getD_mem (l : List String) (rng : Nat) (h : l.filter matchesExt ≠ []) :
    (l.filter matchesExt).getD (rng % (l.filter matchesExt).length) "" ∈
      l.filter matchesExt := by
  have hpos : 0 < (l.filter matchesExt).length := List.length_pos.mpr h
  have hlt : rng % (l.filter matchesExt).length < (l.filter matchesExt).length :=
    Nat.mod_lt _ hpos
  rw [List.getD_eq_getElem?_getD, List.getElem?_eq_getElem hlt]
  exact List.getElem_mem hlt

/-! ### C1: uniform choice among exactly the matching entries -/

/-- C1: for every directory listing with at least one matching entry, the
Selector returns the join of the configured folder with an entry of the
listing whose lowercased name ends with a recognised suffix — never
anything outside that filtered set — and, when the listing has no
duplicate names, each matching entry is produced by exactly one of the
`n` equally likely generator draws `0, ..., n-1` (`n` the number of
matching entries), i.e. the choice is uniform over the filtered set. -/
theorem selector_uniform_over_matching_entries (folder : String) (l : List String)
    (hne : l.filter matchesExt ≠ []) (hnd : l.Nodup) :
    (∀ rng : Nat, ∃ e, e ∈ l ∧ matchesExt e = true ∧
        random_image_selector2 folder (Except.ok l) rng =
          Except.ok (some (joinPath folder e), [])) ∧
    (∀ e, e ∈ l → matchesExt e = true →
      ∃! k : Nat, k < (l.filter matchesExt).length ∧
        random_image_selector2 folder (Except.ok l) k =
          Except.ok (some (joinPath folder e), [])) := by
  constructor
  · intro rng
    refine ⟨(l.filter matchesExt).getD (rng % (l.filter matchesExt).length) "",
      (List.mem_filter.mp (sel_getD_mem l rng hne)).1,
      (List.mem_filter.mp (sel_getD_mem l rng hne)).2,
      sel_eq_of_filter_ne_nil folder l rng hne⟩
  · intro e hel hme
    have hef : e ∈ l.filter matchesExt := List.mem_filter.mpr ⟨hel, hme⟩
    obtain ⟨k, hk, hke⟩ := List.mem_iff_getElem.mp hef
    have hfnd : (l.filter matchesExt).Nodup := List.Nodup.filter _ hnd
    refine ⟨k, ⟨hk, ?_⟩, ?_⟩
    · rw [sel_eq_of_filter_ne_nil folder l k hne, Nat.mod_eq_of_lt hk,
        List.getD_eq_getElem?_getD, List.getElem?_eq_getElem hk]
      simp [hke]
    · rintro k' ⟨hk', heq⟩
      rw [sel_eq_of_filter_ne_nil folder l k' hne, Nat.mod_eq_of_lt hk',
        List.getD_eq_getElem?_getD, List.getElem?_eq_getElem hk'] at heq
      simp only [Except.ok.injEq, Prod.mk.injEq, Option.some.injEq, and_true,
        Option.getD_some] at heq
      have hkk : (l.filter matchesExt)[k'] = (l.filter matchesExt)[k] := by
        rw [hke]; exact joinPath_inj heq
      exact (List.Nodup.getElem_inj_iff hfnd).mp hkk

/-- Witness for C1 at a concrete listing: `["a.JPG", "notes.txt", "b.png"]`
has matching entries and no duplicates, and the theorem's conclusion holds
for it. -/
theorem selector_uniform_over_matching_entries_witness :
    (["a.JPG", "notes.txt", "b.png"].filter matchesExt ≠ []) ∧
    (["a.JPG", "notes.txt", "b.png"] : List String).Nodup ∧
    ((∀ rng : Nat, ∃ e, e ∈ ["a.JPG", "notes.txt", "b.png"] ∧ matchesExt e = true ∧
        random_image_selector2 "imgs" (Except.ok ["a.JPG", "notes.txt", "b.png"]) rng =
          Except.ok (some (joinPath "imgs" e), [])) ∧
    (∀ e, e ∈ ["a.JPG", "notes.txt", "b.png"] → matchesExt e = true →
      ∃! k : Nat, k < (["a.JPG", "notes.txt", "b.png"].filter matchesExt).length ∧
        random_image_selector2 "imgs" (Except.ok ["a.JPG", "notes.txt", "b.png"]) k =
          Except.ok (some (joinPath "imgs" e), []))) :=
  ⟨by decide, by decide,
    selector_uniform_over_matching_entries "imgs" ["a.JPG", "notes.txt", "b.png"]
      (by decide) (by decide)⟩

/-! ### More helper lemmas -/

theorem sel_eq_of_filter_nil (folder : String) (l : List String) (rng : Nat)
    (h : l.filter matchesExt = []) :
    random_image_selector2 folder (Except.ok l) rng =
      Except.ok (none, ["No image files found in the specified folder."]) := by
  unfold random_image_selector2
  simp [List.isEmpty_iff, h]

theorem joinPath_ne_empty (folder name : String) : joinPath folder name ≠ "" := by
  intro h
  have hd : (folder ++ "/" ++ name).data = ("" : String).data := congrArg String.data h
  have hnil : ("" : String).data = [] := rfl
  rw [hnil] at hd
  simp only [String.data_append] at hd
  rcases List.append_eq_nil.mp hd with ⟨h1, _⟩
  rcases List.append_eq_nil.mp h1 with ⟨_, h2⟩
  exact List.cons_ne_nil _ _ h2

theorem sel_error_eq (folder : String) (e : OSErr) (rng : Nat) :
    random_image_selector2 folder (Except.error e) rng = Except.error e := rfl

theorem on_click_listing_error (env : Env) (rng : Nat) (st : ViewerState) (e : OSErr)
    (hl : env.listing = Except.error e) :
    on_button_click env rng st = Except.error e := by
  unfold on_button_click
  rw [hl, sel_error_eq]

theorem on_click_absence (env : Env) (rng : Nat) (st : ViewerState) (l : List String)
    (hl : env.listing = Except.ok l) (hf : l.filter matchesExt = []) :
    on_button_click env rng st =
      Except.ok ({ st with image_label := { st.image_label with text := noImagesText } },
        ["No image files found in the specified folder."]) := by
  unfold on_button_click
  rw [hl, sel_eq_of_filter_nil _ _ _ hf]
  rfl

theorem on_click_success (env : Env) (rng : Nat) (st : ViewerState)
    (p : String) (img : PILImage)
    (hsel : random_image_selector2 image_folder env.listing rng = Except.ok (some p, []))
    (hp : p ≠ "")
    (hopen : env.openImage p = Except.ok img)
    (hphoto : env.photoErr (img.resize (1000, 500) Resampling.LANCZOS) = none) :
    on_button_click env rng st =
      Except.ok ({ st with
        image_label := { st.image_label with
          imageOption := some { img := img.resize (1000, 500) Resampling.LANCZOS } },
        imageAttr := some { img := img.resize (1000, 500) Resampling.LANCZOS } }, []) := by
  have hfal : pyFalsy (some p) = false := by
    simp [pyFalsy, beq_eq_false_iff_ne, hp]
  have hload : loadPhoto env p = Except.ok { img := img.resize (1000, 500) Resampling.LANCZOS } := by
    simp [loadPhoto, mkPhotoImage, hopen, hphoto]
  unfold on_button_click
  rw [hsel]
  simp only [hfal, Bool.false_eq_true, if_false, Option.getD_some]
  rw [hload]
  rfl

theorem on_click_loadfail (env : Env) (rng : Nat) (st : ViewerState)
    (p : String) (exc : String)
    (hsel : random_image_selector2 image_folder env.listing rng = Except.ok (some p, []))
    (hp : p ≠ "")
    (hload : loadPhoto env p = Except.error exc) :
    on_button_click env rng st =
      Except.ok ({ st with image_label := { st.image_label with text := errorText } },
        ["Error loading image " ++ p ++ ": " ++ exc]) := by
  have hfal : pyFalsy (some p) = false := by
    simp [pyFalsy, beq_eq_false_iff_ne, hp]
  unfold on_button_click
  rw [hsel]
  simp only [hfal, Bool.false_eq_true, if_false, Option.getD_some]
  rw [hload]
  rfl

theorem selector_ok_ne_empty {folder : String} {ls : Except OSErr (List String)} {rng : Nat}
    {p : String} {out : List String}
    (h : random_image_selector2 folder ls rng = Except.ok (some p, out)) : p ≠ "" := by
  match ls with
  | Except.error e => exact absurd h (by simp [random_image_selector2])
  | Except.ok l =>
      by_cases hf : l.filter matchesExt = []
      · rw [sel_eq_of_filter_nil folder l rng hf] at h
        simp at h
      · rw [sel_eq_of_filter_ne_nil folder l rng hf] at h
        simp only [Except.ok.injEq, Prod.mk.injEq, Option.some.injEq] at h
        exact h.1 ▸ joinPath_ne_empty _ _

/-! ### C4: absence signal, never an exception, on zero matches -/

/-- C4: for every directory listing with zero entries matching a
recognised suffix, the Selector returns `None` (printing its notice) and
does not raise: the run ends in `Except.ok`. -/
theorem selector_returns_none_on_zero_matches (folder : String) (l : List String) (rng : Nat)
    (h : l.filter matchesExt = []) :
    random_image_selector2 folder (Except.ok l) rng =
      Except.ok (none, ["No image files found in the specified folder."]) :=
  sel_eq_of_filter_nil folder l rng h

/-- Witness for C4: a listing with only non-image files. -/
theorem selector_returns_none_on_zero_matches_witness :
    (["notes.txt", "data.csv"].filter matchesExt = []) ∧
    random_image_selector2 "imgs" (Except.ok ["notes.txt", "data.csv"]) 7 =
      Except.ok (none, ["No image files found in the specified folder."]) :=
  ⟨by decide,
    selector_returns_none_on_zero_matches "imgs" ["notes.txt", "data.csv"] 7 (by decide)⟩

/-! ### C7: deterministic, reproducible choice -/

/-- C7: the Selector's choice is a pure function of the generator draw
(determined by the seed) and the directory listing: two runs with equal
draws over equal listings of the same folder return the same result. -/
theorem selector_deterministic (folder1 folder2 : String)
    (ls1 ls2 : Except OSErr (List String)) (rng1 rng2 : Nat)
    (hf : folder1 = folder2) (hl : ls1 = ls2) (hr : rng1 = rng2) :
    random_image_selector2 folder1 ls1 rng1 = random_image_selector2 folder2 ls2 rng2 := by
  rw [hf, hl, hr]

/-- Witness for C7: two identically seeded runs over the same listing. -/
theorem selector_deterministic_witness :
    random_image_selector2 "imgs" (Except.ok ["a.JPG", "b.png"]) 3 =
      random_image_selector2 "imgs" (Except.ok ["a.JPG", "b.png"]) 3 :=
  selector_deterministic "imgs" "imgs" (Except.ok ["a.JPG", "b.png"])
    (Except.ok ["a.JPG", "b.png"]) 3 3 rfl rfl rfl

/-! ### C3: missing or unreadable directory -/

/-- C3 counterexample: when the configured directory is missing
(`os.listdir` raises `FileNotFoundError`), the Selector propagates the
exception: the outcome is `Except.error`, not the absence signal `None`,
so this case is not handled like "no matching files". -/
theorem selector_listing_error_counterexample :
    random_image_selector2 image_folder (Except.error OSErr.FileNotFoundError) 0 =
      Except.error OSErr.FileNotFoundError ∧
    random_image_selector2 image_folder (Except.error OSErr.FileNotFoundError) 0 ≠
      Except.ok (none, ["No image files found in the specified folder."]) :=
  ⟨rfl, by decide⟩

/-- C3 amended: when the configured directory is missing or unreadable,
the exception from `os.listdir` propagates out of the Selector, and —
since `on_button_click` does not guard the selector call with its `try`
block — out of the click handler as well; the Selector does not signal
absence in this case. -/
theorem selector_raises_on_listing_error (env : Env) (rng : Nat) (st : ViewerState) (e : OSErr)
    (h : env.listing = Except.error e) :
    random_image_selector2 image_folder env.listing rng = Except.error e ∧
    on_button_click env rng st = Except.error e :=
  ⟨by rw [h, sel_error_eq], on_click_listing_error env rng st e h⟩

/-- Witness for the amended C3: the environment with a missing
directory. -/
theorem selector_raises_on_listing_error_witness :
    envMissing.listing = Except.error OSErr.FileNotFoundError ∧
    (random_image_selector2 image_folder envMissing.listing 0 =
        Except.error OSErr.FileNotFoundError ∧
      on_button_click envMissing 0 initialViewerState =
        Except.error OSErr.FileNotFoundError) :=
  ⟨rfl, selector_raises_on_listing_error envMissing 0 initialViewerState
    OSErr.FileNotFoundError rfl⟩

/-! ### C10: frame effect of the absence branch -/

/-- C10: on the absence branch the handler returns before the
image-loading block, so the resulting state differs from the old one only
in the label's configured text: the label's image option, the stored
`image_label.image` reference, and everything else are unchanged (the
selector's notice is the only printed line). -/
theorem click_absence_only_text_changes (env : Env) (rng : Nat) (st : ViewerState)
    (l : List String) (hl : env.listing = Except.ok l) (hf : l.filter matchesExt = []) :
    on_button_click env rng st =
      Except.ok ({ st with image_label := { st.image_label with text := noImagesText } },
        ["No image files found in the specified folder."]) :=
  on_click_absence env rng st l hl hf

/-- Witness for C10: the absence branch run from a state with an image on
display leaves everything but the text in place. -/
theorem click_absence_only_text_changes_witness :
    envNoMatch.listing = Except.ok ["notes.txt", "data.csv"] ∧
    (["notes.txt", "data.csv"].filter matchesExt = []) ∧
    on_button_click envNoMatch 0 stShowing =
      Except.ok ({ stShowing with
          image_label := { stShowing.image_label with text := noImagesText } },
        ["No image files found in the specified folder."]) :=
  ⟨rfl, by decide,
    click_absence_only_text_changes envNoMatch 0 stShowing ["notes.txt", "data.csv"]
      rfl (by decide)⟩

/-! ### C2: the "no images found" branch and stale images -/

/-- C2 evaluated at its failing input: after an earlier click has put
`photoPrev` on display, a click that finds no matching files sets the
label's text to "No images found in folder.", but — because tkinter drops
the `image=None` keyword — the label's image option still holds
`photoPrev`, so the label keeps displaying the stale image and not the
placeholder text. -/
theorem click_absence_keeps_stale_image :
    on_button_click envNoMatch 0 stShowing =
      Except.ok ({ stShowing with
          image_label := { imageOption := some photoPrev, text := noImagesText } },
        ["No image files found in the specified folder."]) ∧
    ({ imageOption := some photoPrev, text := noImagesText } : LabelState).displayed =
      DisplayedContent.image photoPrev ∧
    ({ imageOption := some photoPrev, text := noImagesText } : LabelState).displayed ≠
      DisplayedContent.text noImagesText :=
  ⟨rfl, rfl, by decide⟩

/-! ### C6: the decode-failure branch -/

/-- C6 evaluated at its failing input: when the chosen file fails to
decode, the handler does not raise (it returns `Except.ok`), prints
`Error loading image <path>: <exception>`, and sets the label's text to
"Error loading image.", which differs from the absence text — but with an
image previously on display the label's image option is not cleared
(tkinter drops `image=None`), so the label keeps showing the stale image
rather than the error text. -/
theorem click_decode_error_keeps_stale_image :
    on_button_click envBadDecode 0 stShowing =
      Except.ok ({ stShowing with
          image_label := { imageOption := some photoPrev, text := errorText } },
        ["Error loading image " ++ joinPath image_folder "c.jpg" ++
          ": cannot identify image file"]) ∧
    errorText ≠ noImagesText ∧
    ({ imageOption := some photoPrev, text := errorText } : LabelState).displayed =
      DisplayedContent.image photoPrev ∧
    ({ imageOption := some photoPrev, text := errorText } : LabelState).displayed ≠
      DisplayedContent.text errorText :=
  ⟨rfl, by decide, rfl, by decide⟩

/-! ### C5: successful selection and display -/

/-- C5: when the Selector returns a path whose file opens, decodes and
renders without exception, the handler ends with the label's image option
and the stored reference holding the new `PhotoImage`, whose image is the
opened file resized to exactly 1000 by 500 by the LANCZOS
(quality-preserving) resampling filter; the label then displays this new
image, whatever it showed before. -/
theorem click_success_displays_resized_image (env : Env) (rng : Nat) (st : ViewerState)
    (p : String) (img : PILImage)
    (hsel : random_image_selector2 image_folder env.listing rng = Except.ok (some p, []))
    (hopen : env.openImage p = Except.ok img)
    (hphoto : env.photoErr (img.resize (1000, 500) Resampling.LANCZOS) = none) :
    on_button_click env rng st =
      Except.ok ({ st with
        image_label := { st.image_label with
          imageOption := some { img := img.resize (1000, 500) Resampling.LANCZOS } },
        imageAttr := some { img := img.resize (1000, 500) Resampling.LANCZOS } }, []) ∧
    (img.resize (1000, 500) Resampling.LANCZOS).width = 1000 ∧
    (img.resize (1000, 500) Resampling.LANCZOS).height = 500 ∧
    (img.resize (1000, 500) Resampling.LANCZOS).producedBy = some Resampling.LANCZOS ∧
    ({ st.image_label with
        imageOption := some { img := img.resize (1000, 500) Resampling.LANCZOS } } :
      LabelState).displayed =
      DisplayedContent.image { img := img.resize (1000, 500) Resampling.LANCZOS } :=
  ⟨on_click_success env rng st p img hsel (selector_ok_ne_empty hsel) hopen hphoto,
    rfl, rfl, rfl, rfl⟩

/-- Witness for C5: a click against `envGood` from a state that already
displays another image. -/
theorem click_success_displays_resized_image_witness :
    random_image_selector2 image_folder envGood.listing 0 =
      Except.ok (some (joinPath image_folder "a.JPG"), []) ∧
    envGood.openImage (joinPath image_folder "a.JPG") = Except.ok img640 ∧
    envGood.photoErr (img640.resize (1000, 500) Resampling.LANCZOS) = none ∧
    (on_button_click envGood 0 stShowing =
      Except.ok ({ stShowing with
        image_label := { stShowing.image_label with
          imageOption := some { img := img640.resize (1000, 500) Resampling.LANCZOS } },
        imageAttr := some { img := img640.resize (1000, 500) Resampling.LANCZOS } }, []) ∧
    (img640.resize (1000, 500) Resampling.LANCZOS).width = 1000 ∧
    (img640.resize (1000, 500) Resampling.LANCZOS).height = 500 ∧
    (img640.resize (1000, 500) Resampling.LANCZOS).producedBy = some Resampling.LANCZOS ∧
    ({ stShowing.image_label with
        imageOption := some { img := img640.resize (1000, 500) Resampling.LANCZOS } } :
      LabelState).displayed =
      DisplayedContent.image { img := img640.resize (1000, 500) Resampling.LANCZOS }) :=
  ⟨rfl, rfl, rfl,
    click_success_displays_resized_image envGood 0 stShowing
      (joinPath image_folder "a.JPG") img640 rfl rfl rfl⟩

/-! ### C8: the fixed target resolution and filter -/

/-- C8: the fixed target is exactly 1000 by 500 with the LANCZOS filter:
whatever the dimensions of the opened file, the photo the handler places
on the label (and stores in the reference attribute) is the resize of that
file to width 1000, height 500, produced by `Resampling.LANCZOS`. -/
theorem click_target_resolution_is_1000_500_lanczos (env : Env) (rng : Nat) (st : ViewerState)
    (p : String) (w h : Nat) (f : Option Resampling)
    (hsel : random_image_selector2 image_folder env.listing rng = Except.ok (some p, []))
    (hopen : env.openImage p = Except.ok { width := w, height := h, producedBy := f })
    (hphoto : env.photoErr (PILImage.resize { width := w, height := h, producedBy := f }
        (1000, 500) Resampling.LANCZOS) = none) :
    ∃ st' : ViewerState, on_button_click env rng st = Except.ok (st', []) ∧
      st'.image_label.imageOption =
        some { img := { width := 1000, height := 500, producedBy := some Resampling.LANCZOS } } ∧
      st'.imageAttr =
        some { img := { width := 1000, height := 500, producedBy := some Resampling.LANCZOS } } :=
  ⟨_, on_click_success env rng st p _ hsel (selector_ok_ne_empty hsel) hopen hphoto, rfl, rfl⟩

/-- Witness for C8: a 640 by 480 original still ends as the 1000 by 500
LANCZOS photo. -/
theorem click_target_resolution_is_1000_500_lanczos_witness :
    random_image_selector2 image_folder envGood.listing 1 =
      Except.ok (some (joinPath image_folder "b.png"), []) ∧
    envGood.openImage (joinPath image_folder "b.png") =
      Except.ok { width := 640, height := 480, producedBy := none } ∧
    envGood.photoErr (PILImage.resize { width := 640, height := 480, producedBy := none }
        (1000, 500) Resampling.LANCZOS) = none ∧
    (∃ st' : ViewerState, on_button_click envGood 1 initialViewerState = Except.ok (st', []) ∧
      st'.image_label.imageOption =
        some { img := { width := 1000, height := 500, producedBy := some Resampling.LANCZOS } } ∧
      st'.imageAttr =
        some { img := { width := 1000, height := 500, producedBy := some Resampling.LANCZOS } }) :=
  ⟨rfl, rfl, rfl,
    click_target_resolution_is_1000_500_lanczos envGood 1 initialViewerState
      (joinPath image_folder "b.png") 640 480 none rfl rfl rfl⟩

/-! ### C9: construction populates the display -/

/-- C9: `ImageViewerApp.__init__` ends by running one full
selection-and-display cycle (`self.on_button_click()`); whenever
construction completes normally, the display already shows either a
freshly selected image resized to 1000 by 500 by LANCZOS, or one of the
two placeholder texts — before any user button press. -/
theorem init_shows_image_or_placeholder (env : Env) (rng : Nat)
    (st : ViewerState) (out : List String)
    (h : ImageViewerApp_init env rng = Except.ok (st, out)) :
    (∃ photo : PhotoImage, st.image_label.imageOption = some photo ∧
        photo.img.width = 1000 ∧ photo.img.height = 500 ∧
        photo.img.producedBy = some Resampling.LANCZOS ∧
        st.image_label.displayed = DisplayedContent.image photo) ∨
    (st.image_label.displayed = DisplayedContent.text noImagesText ∨
      st.image_label.displayed = DisplayedContent.text errorText) := by
  unfold ImageViewerApp_init at h
  cases henv : env.listing with
  | error e =>
      rw [on_click_listing_error env rng initialViewerState e henv] at h
      exact absurd h (by simp)
  | ok l =>
      by_cases hf : l.filter matchesExt = []
      · rw [on_click_absence env rng initialViewerState l henv hf] at h
        simp only [Except.ok.injEq, Prod.mk.injEq] at h
        right; left
        rw [← h.1]
        rfl
      · have hsel : random_image_selector2 image_folder env.listing rng =
            Except.ok (some (joinPath image_folder
              ((l.filter matchesExt).getD (rng % (l.filter matchesExt).length) "")), []) := by
          rw [henv]
          exact sel_eq_of_filter_ne_nil image_folder l rng hf
        cases hopen : env.openImage (joinPath image_folder
            ((l.filter matchesExt).getD (rng % (l.filter matchesExt).length) "")) with
        | error exc =>
            have hload : loadPhoto env (joinPath image_folder
                ((l.filter matchesExt).getD (rng % (l.filter matchesExt).length) "")) =
                Except.error exc := by
              unfold loadPhoto
              rw [hopen]
            rw [on_click_loadfail env rng initialViewerState _ exc hsel
              (selector_ok_ne_empty hsel) hload] at h
            simp only [Except.ok.injEq, Prod.mk.injEq] at h
            right; right
            rw [← h.1]
            rfl
        | ok img =>
            cases hph : env.photoErr (img.resize (1000, 500) Resampling.LANCZOS) with
            | some exc =>
                have hload : loadPhoto env (joinPath image_folder
                    ((l.filter matchesExt).getD (rng % (l.filter matchesExt).length) "")) =
                    Except.error exc := by
                  unfold loadPhoto
                  rw [hopen]
                  show mkPhotoImage env (img.resize (1000, 500) Resampling.LANCZOS) =
                    Except.error exc
                  unfold mkPhotoImage
                  rw [hph]
                rw [on_click_loadfail env rng initialViewerState _ exc hsel
                  (selector_ok_ne_empty hsel) hload] at h
                simp only [Except.ok.injEq, Prod.mk.injEq] at h
                right; right
                rw [← h.1]
                rfl
            | none =>
                rw [on_click_success env rng initialViewerState _ img hsel
                  (selector_ok_ne_empty hsel) hopen hph] at h
                simp only [Except.ok.injEq, Prod.mk.injEq] at h
                left
                refine ⟨{ img := img.resize (1000, 500) Resampling.LANCZOS },
                  ?_, rfl, rfl, rfl, ?_⟩
                · rw [← h.1]
                · rw [← h.1]
                  rfl

/-- Witness for C9: constructing the Viewer against `envGood` ends with
the resized image already on display. -/
theorem init_shows_image_or_placeholder_witness :
    ImageViewerApp_init envGood 5 = Except.ok (stInitGood, []) ∧
    ((∃ photo : PhotoImage, stInitGood.image_label.imageOption = some photo ∧
        photo.img.width = 1000 ∧ photo.img.height = 500 ∧
        photo.img.producedBy = some Resampling.LANCZOS ∧
        stInitGood.image_label.displayed = DisplayedContent.image photo) ∨
    (stInitGood.image_label.displayed = DisplayedContent.text noImagesText ∨
      stInitGood.image_label.displayed = DisplayedContent.text errorText)) :=
  ⟨rfl, init_shows_image_or_placeholder envGood 5 stInitGood [] rfl⟩
